import Mathlib

/-!
Shallow embedding of the voice-state transition handler of
`by-nari/temporary-voice-channel-discord-bot` (`src/main.go`) and proofs of
the specified properties.

The handler `onVoiceStateUpdate` is modelled as a pure step function over an
explicit handler state, with the external directory service (the arikawa
`state.State` client) supplied as an oracle `Env` of call results.  Every
outbound directory call the handler performs is recorded, in order, in a
trace of `DirCall` values, so that claims about which calls happen (and in
which order) are statements about the returned trace.
-/

/-- Channel / guild / user identifiers are Discord snowflakes
(`discord.Snowflake`, an `int64` in arikawa). -/
abbrev ChannelID := Int

/-- Snowflake validity, from the arikawa library the source imports:
`IsValid` is false exactly for the zero value `0` and `NullSnowflake = -1`. -/
def ChannelID.isValid (id : ChannelID) : Bool :=
  !(id == -1 || id == 0)

/-- `Snowflake.String()` returns the empty string exactly when the snowflake
is not valid, so the source comparison `id.String() == ""` is `!id.IsValid()`. -/
def ChannelID.stringEmpty (id : ChannelID) : Bool :=
  !id.isValid

/-- The fields of `discord.VoiceState` that the handler reads and stores. -/
structure VoiceState where
  channelID : ChannelID
  guildID : Int
  deriving DecidableEq, Repr

/-- The Go zero value of `discord.VoiceState`, returned by the
`userVoiceStates` map for a key that was never written. -/
def VoiceState.zero : VoiceState := ⟨0, 0⟩

/-- The fields of `gateway.VoiceStateUpdateEvent` the handler reads:
`evt.UserID`, the embedded `evt.VoiceState` (whose `ChannelID` is
`evt.ChannelID`), and `evt.Member.User.Username`. -/
structure Event where
  userID : Nat
  vs : VoiceState
  username : String
  deriving DecidableEq, Repr

/-- `discord.ChannelType` values the handler uses. -/
inductive ChannelType where
  | guildVoice
  | guildText
  | guildCategory
  | other
  deriving DecidableEq, Repr

/-- The fields of `discord.Channel` the handler reads.  `dmRecipients` is
`len(ch.DMRecipients)`; `parentID` is `ch.ParentID` (zero means no parent). -/
structure Channel where
  id : ChannelID
  name : String
  type : ChannelType
  guildID : Int
  parentID : ChannelID
  dmRecipients : Nat
  deriving DecidableEq, Repr

/-- `api.CreateChannelData` fields the handler sets; a field the Go code
leaves unset is the zero value (`categoryID = 0` for the category create). -/
structure CreateChannelData where
  name : String
  type : ChannelType
  categoryID : ChannelID
  deriving DecidableEq, Repr

/-- Which syntactic call site of the handler issued a directory call; observer
metadata attached to the trace, not data of the program. -/
inductive CallTag where
  | clone
  | teamsCategory
  | teamsText
  | teamsVoice
  | standalone
  | teardownChild
  | teardownCategory
  deriving DecidableEq, Repr

/-- One outbound directory-client call together with its outcome. -/
inductive DirCall where
  | getChannel (id : ChannelID) (result : Option Channel)
  | create (tag : CallTag) (guild : Int) (data : CreateChannelData)
      (result : Option Channel)
  | move (tag : CallTag) (guild : Int) (user : Nat) (chan : ChannelID) (ok : Bool)
  | delete (tag : CallTag) (id : ChannelID) (ok : Bool)
  | listChannels (guild : Int) (result : Option (List Channel))
  deriving DecidableEq, Repr

/-- Oracle for the directory client (`h.s`): the result each call would
return.  `none` / `false` stands for a non-nil Go error. -/
structure Env where
  channel : ChannelID → Option Channel
  createChannel : Int → CreateChannelData → Option Channel
  modifyMember : Int → Nat → ChannelID → Bool
  deleteChannel : ChannelID → Bool
  channels : Int → Option (List Channel)

/-- The mutable fields of `handler`: the `userVoiceStates` map (as an
association list; a missing key reads as the zero `VoiceState`) and the two
tracker slices. -/
structure HState where
  userVoiceStates : List (Nat × VoiceState)
  temporaryChannels : List ChannelID
  temporaryCategories : List ChannelID
  deriving DecidableEq, Repr

/-- `newHandler`: empty map, nil slices. -/
def initialState : HState := ⟨[], [], []⟩

/-- Go map read `m[u]`: the stored value, or the zero value if absent. -/
def regGet : List (Nat × VoiceState) → Nat → VoiceState
  | [], _ => VoiceState.zero
  | (u, v) :: rest, u0 => if u = u0 then v else regGet rest u0

/-- Go map write `m[u] = v`: overwrite the entry, or add it if absent. -/
def regSet : List (Nat × VoiceState) → Nat → VoiceState → List (Nat × VoiceState)
  | [], u0, v0 => [(u0, v0)]
  | (u, v) :: rest, u0, v0 =>
      if u = u0 then (u0, v0) :: rest else (u, v) :: regSet rest u0 v0

/-- `contains` from `src/main.go`: linear scan of a slice of channel IDs. -/
def contains : List ChannelID → ChannelID → Bool
  | [], _ => false
  | item :: rest, elem => if item == elem then true else contains rest elem

/-- `remove` from `src/main.go`: drop the first occurrence of `elem`, if any. -/
def remove : List ChannelID → ChannelID → List ChannelID
  | [], _ => []
  | item :: rest, elem => if item == elem then rest else item :: remove rest elem

/-- `markChannel` (spec name for line 112 of the source):
`h.temporaryChannels = append(h.temporaryChannels, id)`. -/
def markChannel (l : List ChannelID) (id : ChannelID) : List ChannelID :=
  l ++ [id]

/-- `markCategory` (spec name for line 153 of the source):
`h.temporaryCategories = append(h.temporaryCategories, id)`. -/
def markCategory (l : List ChannelID) (id : ChannelID) : List ChannelID :=
  l ++ [id]

/-- The literal suffix the source appends to the username
(`"'s room"`); spelled via `Char.ofNat 39` for the apostrophe. -/
def roomSuffix : String :=
  ⟨[Char.ofNat 39, 's', ' ', 'r', 'o', 'o', 'm']⟩

/-- The clone-trigger channel-name literal of the source (dog emoji + bark). -/
def cloneTriggerName : String := "🐕 bark"

/-- The teams-trigger channel-name literal of the source. -/
def teamsTriggerName : String := "teams"

/-- The `api.CreateChannelData` of the clone create (source lines 96-100). -/
def cloneData (afterChannel : Channel) (possibleChannelName : String) :
    CreateChannelData :=
  ⟨possibleChannelName, .guildVoice, afterChannel.parentID⟩

/-- The `api.CreateChannelData` of the teams category create (lines 116-119). -/
def teamsCategoryData (possibleChannelName : String) : CreateChannelData :=
  ⟨possibleChannelName, .guildCategory, 0⟩

/-- The `api.CreateChannelData` of the teams text create (lines 125-129). -/
def teamsTextData (categoryID : ChannelID) : CreateChannelData :=
  ⟨"text", .guildText, categoryID⟩

/-- The `api.CreateChannelData` of the teams voice create (lines 135-139). -/
def teamsVoiceData (categoryID : ChannelID) : CreateChannelData :=
  ⟨"voice", .guildVoice, categoryID⟩

/-- Source lines 95-113: the clone-trigger workflow.  Create the voice
channel, move the member, and only after both succeed append the created
ID to `temporaryChannels`; each error returns, dropping the rest. -/
def cloneFlow (env : Env) (st : HState) (evt : Event) (afterChannel : Channel)
    (possibleChannelName : String) : HState × List DirCall :=
  let data := cloneData afterChannel possibleChannelName
  match env.createChannel afterChannel.guildID data with
  | none => (st, [.create .clone afterChannel.guildID data none])
  | some tempChannel =>
    if env.modifyMember afterChannel.guildID evt.userID tempChannel.id then
      ({ st with temporaryChannels := markChannel st.temporaryChannels tempChannel.id },
       [.create .clone afterChannel.guildID data (some tempChannel),
        .move .clone afterChannel.guildID evt.userID tempChannel.id true])
    else
      (st,
       [.create .clone afterChannel.guildID data (some tempChannel),
        .move .clone afterChannel.guildID evt.userID tempChannel.id false])

/-- Source lines 115-154: the teams-trigger workflow.  Category, text and
voice create in sequence, then the move; any error returns, and only full
success appends the voice channel ID to `temporaryCategories`. -/
def teamsFlow (env : Env) (st : HState) (evt : Event) (afterChannel : Channel)
    (possibleChannelName : String) : HState × List DirCall :=
  let catData := teamsCategoryData possibleChannelName
  match env.createChannel afterChannel.guildID catData with
  | none => (st, [.create .teamsCategory afterChannel.guildID catData none])
  | some temporaryCategory =>
    let c1 := DirCall.create .teamsCategory afterChannel.guildID catData
      (some temporaryCategory)
    let textData := teamsTextData temporaryCategory.id
    match env.createChannel temporaryCategory.guildID textData with
    | none =>
        (st, [c1, .create .teamsText temporaryCategory.guildID textData none])
    | some textChannel =>
      let c2 := DirCall.create .teamsText temporaryCategory.guildID textData
        (some textChannel)
      let voiceData := teamsVoiceData temporaryCategory.id
      match env.createChannel temporaryCategory.guildID voiceData with
      | none =>
          (st, [c1, c2, .create .teamsVoice temporaryCategory.guildID voiceData none])
      | some tempChannel =>
        let c3 := DirCall.create .teamsVoice temporaryCategory.guildID voiceData
          (some tempChannel)
        if env.modifyMember temporaryCategory.guildID evt.userID tempChannel.id then
          ({ st with temporaryCategories :=
                markCategory st.temporaryCategories tempChannel.id },
           [c1, c2, c3,
            .move .teamsVoice temporaryCategory.guildID evt.userID tempChannel.id true])
        else
          (st,
           [c1, c2, c3,
            .move .teamsVoice temporaryCategory.guildID evt.userID tempChannel.id false])

/-- Source lines 89-155: the join branch.  Fetch the destination channel;
on error return.  The source tests the clone trigger and the teams trigger
in two separate `if` statements, but the two name literals differ, so at
most one branch can run and the if/else-if below is equivalent. -/
def joinBranch (env : Env) (st : HState) (evt : Event)
    (possibleChannelName : String) : HState × List DirCall :=
  match env.channel evt.vs.channelID with
  | none => (st, [.getChannel evt.vs.channelID none])
  | some afterChannel =>
    let r :=
      if afterChannel.name = cloneTriggerName then
        cloneFlow env st evt afterChannel possibleChannelName
      else if afterChannel.name = teamsTriggerName then
        teamsFlow env st evt afterChannel possibleChannelName
      else (st, [])
    (r.1, .getChannel evt.vs.channelID (some afterChannel) :: r.2)

/-- Source lines 166-174: standalone-channel teardown.  If the left channel
is tracked and its `DMRecipients` slice is empty, call `DeleteChannel` and
then `remove` the ID — the removal is unconditional, a delete error is only
logged. -/
def standaloneTeardown (env : Env) (st : HState) (beforeChannel : Channel) :
    HState × List DirCall :=
  if contains st.temporaryChannels beforeChannel.id then
    if beforeChannel.dmRecipients = 0 then
      ({ st with temporaryChannels := remove st.temporaryChannels beforeChannel.id },
       [.delete .standalone beforeChannel.id (env.deleteChannel beforeChannel.id)])
    else (st, [])
  else (st, [])

/-- Source lines 176-196: category teardown.  Guarded by a non-zero parent
and the left channel's ID being tracked in `temporaryCategories`; fetches the
parent, and when that fetch succeeds and `DMRecipients` is empty, lists the
guild, deletes every child of the category (results discarded), deletes the
category, and then calls `remove(&h.temporaryCategories, categoryID)` — with
the parent's ID, exactly as the source does. -/
def categoryTeardown (env : Env) (st : HState) (beforeChannel : Channel) :
    HState × List DirCall :=
  let categoryID := beforeChannel.parentID
  if categoryID ≠ 0 ∧ contains st.temporaryCategories beforeChannel.id then
    match env.channel categoryID with
    | none => (st, [.getChannel categoryID none])
    | some category =>
      if beforeChannel.dmRecipients = 0 then
        match env.channels category.guildID with
        | none =>
            (st, [.getChannel categoryID (some category),
                  .listChannels category.guildID none])
        | some chans =>
          let childCalls := (chans.filter (fun c => c.parentID = categoryID)).map
            (fun c => DirCall.delete .teardownChild c.id (env.deleteChannel c.id))
          ({ st with temporaryCategories := remove st.temporaryCategories categoryID },
           [.getChannel categoryID (some category),
            .listChannels category.guildID (some chans)]
             ++ childCalls
             ++ [.delete .teardownCategory category.id (env.deleteChannel category.id)])
      else (st, [.getChannel categoryID (some category)])
  else (st, [])

/-- Source lines 158-197: the leave branch.  Fetch the left channel; on
error return; otherwise run the standalone teardown and then the category
teardown. -/
def leaveBranch (env : Env) (st : HState) (beforeID : ChannelID) :
    HState × List DirCall :=
  match env.channel beforeID with
  | none => (st, [.getChannel beforeID none])
  | some beforeChannel =>
    let r1 := standaloneTeardown env st beforeChannel
    let r2 := categoryTeardown env r1.1 beforeChannel
    (r2.1, .getChannel beforeID (some beforeChannel) :: (r1.2 ++ r2.2))

/-- Source lines 73-198, `onVoiceStateUpdate`: read the previous state,
unconditionally overwrite the registry entry, then run the join branch
(guard: previous channel invalid, new channel valid) or the leave branch
(guard: previous valid, new invalid).  In the source the two branches are
two consecutive `if` statements, but their guards need `!IsValid(before)`
and `IsValid(before)` respectively, so at most one runs and the early
returns inside the first never skip a live second branch; the if/else-if
below is therefore equivalent. -/
def onVoiceStateUpdate (env : Env) (st : HState) (evt : Event) :
    HState × List DirCall :=
  let before := regGet st.userVoiceStates evt.userID
  let st1 := { st with userVoiceStates := regSet st.userVoiceStates evt.userID evt.vs }
  let possibleChannelName := evt.username ++ roomSuffix
  if before.channelID.stringEmpty && evt.vs.channelID.isValid then
    if before.channelID ≠ evt.vs.channelID then
      joinBranch env st1 evt possibleChannelName
    else (st1, [])
  else if before.channelID.isValid && evt.vs.channelID.stringEmpty then
    leaveBranch env st1 before.channelID
  else (st1, [])

/-- A run: process a list of notifications, each against its own oracle,
concatenating the call traces. -/
def run : HState → List (Event × Env) → HState × List DirCall
  | st, [] => (st, [])
  | st, (evt, env) :: rest =>
    let r := onVoiceStateUpdate env st evt
    let r2 := run r.1 rest
    (r2.1, r.2 ++ r2.2)

/-! ### Trace and slice counting -/

/-- Occurrences of an ID in a tracker slice. -/
def countId : List ChannelID → ChannelID → Nat
  | [], _ => 0
  | a :: rest, x => (if a = x then 1 else 0) + countId rest x

/-- Successful `CreateChannel` calls of the clone branch returning `id`. -/
def cloneCreates : List DirCall → ChannelID → Nat
  | [], _ => 0
  | .create .clone _ _ (some ch) :: rest, id =>
      (if ch.id = id then 1 else 0) + cloneCreates rest id
  | _ :: rest, id => cloneCreates rest id

/-- `DeleteChannel` attempts on `id` made by the standalone teardown branch,
successful or not. -/
def standaloneDeletes : List DirCall → ChannelID → Nat
  | [], _ => 0
  | .delete .standalone i _ :: rest, id =>
      (if i = id then 1 else 0) + standaloneDeletes rest id
  | _ :: rest, id => standaloneDeletes rest id

/-- Successful `DeleteChannel` calls on `id` made by the standalone teardown
branch. -/
def standaloneDeleteSuccesses : List DirCall → ChannelID → Nat
  | [], _ => 0
  | .delete .standalone i true :: rest, id =>
      (if i = id then 1 else 0) + standaloneDeleteSuccesses rest id
  | _ :: rest, id => standaloneDeleteSuccesses rest id

theorem countId_append (l₁ l₂ : List ChannelID) (x : ChannelID) :
    countId (l₁ ++ l₂) x = countId l₁ x + countId l₂ x := by
  induction l₁ with
  | nil => simp [countId]
  | cons a rest ih => simp [countId, ih]; omega

theorem cloneCreates_append (t₁ t₂ : List DirCall) (x : ChannelID) :
    cloneCreates (t₁ ++ t₂) x = cloneCreates t₁ x + cloneCreates t₂ x := by
  induction t₁ with
  | nil => simp [cloneCreates]
  | cons a rest ih =>
      cases a with
      | create tag g d r =>
          cases tag <;> cases r <;> simp [cloneCreates, ih] <;> omega
      | getChannel i r => simp [cloneCreates, ih]
      | move tag g u c ok => simp [cloneCreates, ih]
      | delete tag i ok => simp [cloneCreates, ih]
      | listChannels g r => simp [cloneCreates, ih]

theorem standaloneDeletes_append (t₁ t₂ : List DirCall) (x : ChannelID) :
    standaloneDeletes (t₁ ++ t₂) x
      = standaloneDeletes t₁ x + standaloneDeletes t₂ x := by
  induction t₁ with
  | nil => simp [standaloneDeletes]
  | cons a rest ih =>
      cases a with
      | delete tag i ok =>
          cases tag <;> simp [standaloneDeletes, ih] <;> omega
      | getChannel i r => simp [standaloneDeletes, ih]
      | move tag g u c ok => simp [standaloneDeletes, ih]
      | create tag g d r => simp [standaloneDeletes, ih]
      | listChannels g r => simp [standaloneDeletes, ih]

theorem contains_iff_countId_pos (l : List ChannelID) (x : ChannelID) :
    contains l x = true ↔ 0 < countId l x := by
  induction l with
  | nil => simp [contains, countId]
  | cons a rest ih =>
      by_cases h : a = x <;> simp [contains, countId, h, ih]

theorem countId_remove_self (l : List ChannelID) (x : ChannelID)
    (h : contains l x = true) :
    countId (remove l x) x + 1 = countId l x := by
  induction l with
  | nil => simp [contains] at h
  | cons a rest ih =>
      by_cases hax : a = x
      · simp [remove, countId, hax]; omega
      · simp [contains, hax] at h
        simp [remove, countId, hax, ih h]

theorem countId_remove_ne (l : List ChannelID) (x y : ChannelID)
    (h : x ≠ y) :
    countId (remove l x) y = countId l y := by
  induction l with
  | nil => simp [remove]
  | cons a rest ih =>
      by_cases hax : a = x
      · subst hax
        simp [remove, countId, h]
      · simp [remove, countId, hax, ih]

/-! ### Registry lemmas -/

theorem regGet_regSet_same (r : List (Nat × VoiceState)) (u : Nat) (v : VoiceState) :
    regGet (regSet r u v) u = v := by
  induction r with
  | nil => simp [regSet, regGet]
  | cons p rest ih =>
      obtain ⟨u1, v1⟩ := p
      by_cases h : u1 = u <;> simp [regSet, regGet, h, ih]

theorem regGet_regSet_ne (r : List (Nat × VoiceState)) (u u0 : Nat)
    (v : VoiceState) (h : u0 ≠ u) :
    regGet (regSet r u v) u0 = regGet r u0 := by
  induction r with
  | nil => simp [regSet, regGet, Ne.symm h]
  | cons p rest ih =>
      obtain ⟨u1, v1⟩ := p
      by_cases h1 : u1 = u
      · subst h1
        simp [regSet, regGet, Ne.symm h]
      · simp only [regSet, regGet, if_neg h1]
        by_cases h2 : u1 = u0 <;> simp [h2, ih]

theorem regSet_regSet_same (r : List (Nat × VoiceState)) (u : Nat)
    (v : VoiceState) :
    regSet (regSet r u v) u v = regSet r u v := by
  induction r with
  | nil => simp [regSet]
  | cons p rest ih =>
      obtain ⟨u1, v1⟩ := p
      by_cases h : u1 = u <;> simp [regSet, h, ih]

/-! ### Frame lemmas: which state fields each branch can touch -/

theorem cloneFlow_userVoiceStates (env : Env) (st : HState) (evt : Event)
    (ch : Channel) (n : String) :
    (cloneFlow env st evt ch n).1.userVoiceStates = st.userVoiceStates := by
  simp only [cloneFlow]
  split
  · rfl
  · split <;> rfl

theorem cloneFlow_temporaryCategories (env : Env) (st : HState) (evt : Event)
    (ch : Channel) (n : String) :
    (cloneFlow env st evt ch n).1.temporaryCategories = st.temporaryCategories := by
  simp only [cloneFlow]
  split
  · rfl
  · split <;> rfl

theorem teamsFlow_userVoiceStates (env : Env) (st : HState) (evt : Event)
    (ch : Channel) (n : String) :
    (teamsFlow env st evt ch n).1.userVoiceStates = st.userVoiceStates := by
  simp only [teamsFlow]
  split
  · rfl
  · split
    · rfl
    · split
      · rfl
      · split <;> rfl

theorem teamsFlow_temporaryChannels (env : Env) (st : HState) (evt : Event)
    (ch : Channel) (n : String) :
    (teamsFlow env st evt ch n).1.temporaryChannels = st.temporaryChannels := by
  simp only [teamsFlow]
  split
  · rfl
  · split
    · rfl
    · split
      · rfl
      · split <;> rfl

theorem joinBranch_userVoiceStates (env : Env) (st : HState) (evt : Event)
    (n : String) :
    (joinBranch env st evt n).1.userVoiceStates = st.userVoiceStates := by
  simp only [joinBranch]
  split
  · rfl
  · simp only
    split
    · exact cloneFlow_userVoiceStates ..
    · split
      · exact teamsFlow_userVoiceStates ..
      · rfl

theorem standaloneTeardown_userVoiceStates (env : Env) (st : HState)
    (ch : Channel) :
    (standaloneTeardown env st ch).1.userVoiceStates = st.userVoiceStates := by
  simp only [standaloneTeardown]
  split
  · split <;> rfl
  · rfl

theorem standaloneTeardown_temporaryCategories (env : Env) (st : HState)
    (ch : Channel) :
    (standaloneTeardown env st ch).1.temporaryCategories
      = st.temporaryCategories := by
  simp only [standaloneTeardown]
  split
  · split <;> rfl
  · rfl

theorem categoryTeardown_userVoiceStates (env : Env) (st : HState)
    (ch : Channel) :
    (categoryTeardown env st ch).1.userVoiceStates = st.userVoiceStates := by
  simp only [categoryTeardown]
  split
  · split
    · rfl
    · split
      · split <;> rfl
      · rfl
  · rfl

theorem categoryTeardown_temporaryChannels (env : Env) (st : HState)
    (ch : Channel) :
    (categoryTeardown env st ch).1.temporaryChannels = st.temporaryChannels := by
  simp only [categoryTeardown]
  split
  · split
    · rfl
    · split
      · split <;> rfl
      · rfl
  · rfl

theorem leaveBranch_userVoiceStates (env : Env) (st : HState)
    (beforeID : ChannelID) :
    (leaveBranch env st beforeID).1.userVoiceStates = st.userVoiceStates := by
  simp only [leaveBranch]
  split
  · rfl
  · simp only
    rw [categoryTeardown_userVoiceStates, standaloneTeardown_userVoiceStates]

theorem onVoiceStateUpdate_userVoiceStates (env : Env) (st : HState)
    (evt : Event) :
    (onVoiceStateUpdate env st evt).1.userVoiceStates
      = regSet st.userVoiceStates evt.userID evt.vs := by
  simp only [onVoiceStateUpdate]
  split
  · split
    · exact joinBranch_userVoiceStates ..
    · rfl
  · split
    · exact leaveBranch_userVoiceStates ..
    · rfl

/-! ### Counting invariant for `temporaryChannels` (claim C2)

`temporaryChannels` gains an ID only when a clone-branch `CreateChannel`
succeeded *and* the follow-up `MoveMember` succeeded (the append at source
line 112 runs after both), and loses one occurrence whenever the standalone
teardown attempts a `DeleteChannel` — whether or not that delete succeeds.
The per-ID occurrence count therefore satisfies an exact balance equation. -/

/-- Completed clone workflows into channel `id`: successful `MoveMember`
calls issued by the clone branch.  The clone branch issues its move only
after its `CreateChannel` succeeded, with the created channel as the
destination, and appends to `temporaryChannels` exactly when the move
succeeds. -/
def cloneMoves : List DirCall → ChannelID → Nat
  | [], _ => 0
  | .move .clone _ _ c true :: rest, id =>
      (if c = id then 1 else 0) + cloneMoves rest id
  | _ :: rest, id => cloneMoves rest id

theorem cloneMoves_append (t₁ t₂ : List DirCall) (x : ChannelID) :
    cloneMoves (t₁ ++ t₂) x = cloneMoves t₁ x + cloneMoves t₂ x := by
  induction t₁ with
  | nil => simp [cloneMoves]
  | cons a rest ih =>
      cases a with
      | move tag g u c ok =>
          cases tag <;> cases ok <;> simp [cloneMoves, ih] <;> omega
      | getChannel i r => simp [cloneMoves, ih]
      | create tag g d r => simp [cloneMoves, ih]
      | delete tag i ok => simp [cloneMoves, ih]
      | listChannels g r => simp [cloneMoves, ih]

theorem cloneMoves_childCalls (env : Env) (cs : List Channel)
    (catID : ChannelID) (id : ChannelID) :
    cloneMoves ((cs.filter (fun c => c.parentID = catID)).map
      (fun c => DirCall.delete .teardownChild c.id (env.deleteChannel c.id))) id
      = 0 := by
  induction cs with
  | nil => rfl
  | cons c rest ih =>
      by_cases h : c.parentID = catID <;>
        simp [List.filter_cons, h, cloneMoves, ih]

theorem standaloneDeletes_childCalls (env : Env) (cs : List Channel)
    (catID : ChannelID) (id : ChannelID) :
    standaloneDeletes ((cs.filter (fun c => c.parentID = catID)).map
      (fun c => DirCall.delete .teardownChild c.id (env.deleteChannel c.id))) id
      = 0 := by
  induction cs with
  | nil => rfl
  | cons c rest ih =>
      by_cases h : c.parentID = catID <;>
        simp [List.filter_cons, h, standaloneDeletes, ih]

theorem cloneFlow_count (env : Env) (st : HState) (evt : Event) (ch : Channel)
    (n : String) (id : ChannelID) :
    countId (cloneFlow env st evt ch n).1.temporaryChannels id
      + standaloneDeletes (cloneFlow env st evt ch n).2 id
    = countId st.temporaryChannels id
      + cloneMoves (cloneFlow env st evt ch n).2 id := by
  simp only [cloneFlow]
  split
  · simp [cloneMoves, standaloneDeletes]
  · split
    · simp [markChannel, countId_append, countId, cloneMoves, standaloneDeletes]
    · simp [cloneMoves, standaloneDeletes]

theorem teamsFlow_count (env : Env) (st : HState) (evt : Event) (ch : Channel)
    (n : String) (id : ChannelID) :
    countId (teamsFlow env st evt ch n).1.temporaryChannels id
      + standaloneDeletes (teamsFlow env st evt ch n).2 id
    = countId st.temporaryChannels id
      + cloneMoves (teamsFlow env st evt ch n).2 id := by
  simp only [teamsFlow]
  split
  · simp [cloneMoves, standaloneDeletes]
  · split
    · simp [cloneMoves, standaloneDeletes]
    · split
      · simp [cloneMoves, standaloneDeletes]
      · split <;> simp [cloneMoves, standaloneDeletes]

theorem joinBranch_count (env : Env) (st : HState) (evt : Event) (n : String)
    (id : ChannelID) :
    countId (joinBranch env st evt n).1.temporaryChannels id
      + standaloneDeletes (joinBranch env st evt n).2 id
    = countId st.temporaryChannels id
      + cloneMoves (joinBranch env st evt n).2 id := by
  simp only [joinBranch]
  split
  · simp [cloneMoves, standaloneDeletes]
  · simp only [cloneMoves, standaloneDeletes]
    split
    · exact cloneFlow_count ..
    · split
      · exact teamsFlow_count ..
      · simp [cloneMoves, standaloneDeletes]

theorem standaloneTeardown_count (env : Env) (st : HState) (ch : Channel)
    (id : ChannelID) :
    countId (standaloneTeardown env st ch).1.temporaryChannels id
      + standaloneDeletes (standaloneTeardown env st ch).2 id
    = countId st.temporaryChannels id
      + cloneMoves (standaloneTeardown env st ch).2 id := by
  simp only [standaloneTeardown]
  split_ifs with h1 h2
  · by_cases hid : ch.id = id
    · subst hid
      simp [standaloneDeletes, cloneMoves]
      exact countId_remove_self _ _ h1
    · simp [standaloneDeletes, cloneMoves, hid, countId_remove_ne _ _ _ hid]
  · simp [standaloneDeletes, cloneMoves]
  · simp [standaloneDeletes, cloneMoves]

theorem categoryTeardown_count (env : Env) (st : HState) (ch : Channel)
    (id : ChannelID) :
    countId (categoryTeardown env st ch).1.temporaryChannels id
      + standaloneDeletes (categoryTeardown env st ch).2 id
    = countId st.temporaryChannels id
      + cloneMoves (categoryTeardown env st ch).2 id := by
  simp only [categoryTeardown]
  split
  · split
    · simp [cloneMoves, standaloneDeletes]
    · split
      · split
        · simp [cloneMoves, standaloneDeletes]
        · simp [cloneMoves, standaloneDeletes, cloneMoves_append,
            standaloneDeletes_append, cloneMoves_childCalls,
            standaloneDeletes_childCalls]
      · simp [cloneMoves, standaloneDeletes]
  · simp [cloneMoves, standaloneDeletes]

theorem leaveBranch_count (env : Env) (st : HState) (beforeID : ChannelID)
    (id : ChannelID) :
    countId (leaveBranch env st beforeID).1.temporaryChannels id
      + standaloneDeletes (leaveBranch env st beforeID).2 id
    = countId st.temporaryChannels id
      + cloneMoves (leaveBranch env st beforeID).2 id := by
  simp only [leaveBranch]
  split
  · simp [cloneMoves, standaloneDeletes]
  · rename_i bch heq
    simp only [cloneMoves, standaloneDeletes, cloneMoves_append,
      standaloneDeletes_append]
    have h1 := standaloneTeardown_count env st bch id
    have h2 := categoryTeardown_count env (standaloneTeardown env st bch).1 bch id
    omega

theorem onVoiceStateUpdate_count (env : Env) (st : HState) (evt : Event)
    (id : ChannelID) :
    countId (onVoiceStateUpdate env st evt).1.temporaryChannels id
      + standaloneDeletes (onVoiceStateUpdate env st evt).2 id
    = countId st.temporaryChannels id
      + cloneMoves (onVoiceStateUpdate env st evt).2 id := by
  simp only [onVoiceStateUpdate]
  split
  · split
    · exact joinBranch_count ..
    · simp [cloneMoves, standaloneDeletes]
  · split
    · exact leaveBranch_count ..
    · simp [cloneMoves, standaloneDeletes]

theorem run_count (evs : List (Event × Env)) (st : HState) (id : ChannelID) :
    countId (run st evs).1.temporaryChannels id
      + standaloneDeletes (run st evs).2 id
    = countId st.temporaryChannels id + cloneMoves (run st evs).2 id := by
  induction evs generalizing st with
  | nil => simp [run, cloneMoves, standaloneDeletes]
  | cons p rest ih =>
      obtain ⟨evt, env⟩ := p
      simp only [run, cloneMoves_append, standaloneDeletes_append]
      have h1 := onVoiceStateUpdate_count env st evt id
      have h2 := ih (onVoiceStateUpdate env st evt).1
      omega

/-! ### Membership after a mark -/

theorem contains_append_single (l : List ChannelID) (x y : ChannelID) :
    contains (l ++ [x]) y = (contains l y || x == y) := by
  induction l with
  | nil => by_cases h : x = y <;> simp [contains, h]
  | cons a rest ih =>
      by_cases h : a = y <;> simp [contains, h, ih]

/-! ### Idempotent second delivery: supporting lemma -/

/-- If the registry already holds exactly the membership an event carries
(and re-writing it is a no-op on the map), the handler classifies the event
as neither JOIN nor LEAVE and returns without any directory call. -/
theorem noop_of_registry_current (env : Env) (st : HState) (evt : Event)
    (h : regGet st.userVoiceStates evt.userID = evt.vs)
    (h2 : regSet st.userVoiceStates evt.userID evt.vs = st.userVoiceStates) :
    onVoiceStateUpdate env st evt = (st, []) := by
  simp only [onVoiceStateUpdate, h, h2, ChannelID.stringEmpty,
    Bool.not_and_self, Bool.and_not_self]
  simp

/-! ### The claims -/

/-- C8: after the handler returns, the registry entry for the event's user
equals the membership carried by the event, for every oracle — in
particular regardless of any directory-call failure, because the write at
source line 80 happens before classification and no branch touches the map
again. -/
theorem c8_registry_reflects_event (env : Env) (st : HState) (evt : Event) :
    regGet (onVoiceStateUpdate env st evt).1.userVoiceStates evt.userID
      = evt.vs := by
  rw [onVoiceStateUpdate_userVoiceStates, regGet_regSet_same]

/-- C10: processing one notification leaves every other user's registry
entry unchanged, whatever the oracle answers. -/
theorem c10_other_users_unchanged (env : Env) (st : HState) (evt : Event)
    (u : Nat) (h : u ≠ evt.userID) :
    regGet (onVoiceStateUpdate env st evt).1.userVoiceStates u
      = regGet st.userVoiceStates u := by
  rw [onVoiceStateUpdate_userVoiceStates, regGet_regSet_ne _ _ _ _ h]

/-- C7: delivering the identical notification twice in a row makes the
second delivery a pure no-op: no directory calls, and the state (registry
and both tracker slices) is exactly the state after the first delivery. -/
theorem c7_redelivery_noop (env env2 : Env) (st : HState) (evt : Event) :
    onVoiceStateUpdate env2 (onVoiceStateUpdate env st evt).1 evt
      = ((onVoiceStateUpdate env st evt).1, []) := by
  apply noop_of_registry_current
  · rw [onVoiceStateUpdate_userVoiceStates, regGet_regSet_same]
  · rw [onVoiceStateUpdate_userVoiceStates, regSet_regSet_same]

/-- C6: when the previous and new channel IDs are both valid and differ (a
MOVE) or are equal (a NO-OP), the handler performs no directory call and
changes nothing but the triggering user's registry entry — in particular a
pure move out of a tracked channel triggers no teardown. -/
theorem c6_move_noop_frame (env : Env) (st : HState) (evt : Event)
    (h : ((regGet st.userVoiceStates evt.userID).channelID.isValid = true
            ∧ evt.vs.channelID.isValid = true)
         ∨ (regGet st.userVoiceStates evt.userID).channelID
             = evt.vs.channelID) :
    onVoiceStateUpdate env st evt
      = ({ st with
            userVoiceStates := regSet st.userVoiceStates evt.userID evt.vs },
         []) := by
  rcases h with ⟨h1, h2⟩ | h1
  · simp only [onVoiceStateUpdate, ChannelID.stringEmpty, h1, h2]
    simp
  · simp only [onVoiceStateUpdate, h1, ChannelID.stringEmpty,
      Bool.not_and_self, Bool.and_not_self]
    simp

/-- C9 counterexample: marking an already-present ID does not leave the
underlying slice unchanged — `append` introduces a duplicate entry (the
source tracks the sets as Go slices, and `remove` drops only the first
occurrence). -/
theorem c9_mark_duplicates_entry :
    contains [(5 : ChannelID)] 5 = true
      ∧ markChannel [(5 : ChannelID)] 5 = [5, 5]
      ∧ markCategory [(5 : ChannelID)] 5 = [5, 5]
      ∧ countId (markChannel [(5 : ChannelID)] 5) 5 = 2 := by
  decide

/-- C9 (amended): marking an ID already present in a tracker slice leaves
the slice's membership — as tested by the source's `contains` — unchanged
for every ID, although the underlying slice gains a duplicate entry. -/
theorem c9_mark_membership_idempotent (l : List ChannelID) (x y : ChannelID)
    (h : contains l x = true) :
    contains (markChannel l x) y = contains l y
      ∧ contains (markCategory l x) y = contains l y := by
  have key : contains (l ++ [x]) y = contains l y := by
    rw [contains_append_single]
    by_cases hxy : x = y
    · subst hxy
      simp [h]
    · simp [hxy]
  exact ⟨key, key⟩

/-- C9 witness: a concrete instance of the amended statement. -/
theorem c9_mark_membership_idempotent_witness :
    contains [(5 : ChannelID), 6] 5 = true
      ∧ (contains (markChannel [(5 : ChannelID), 6] 5) 6 = contains [(5 : ChannelID), 6] 6
          ∧ contains (markCategory [(5 : ChannelID), 6] 5) 6 = contains [(5 : ChannelID), 6] 6) :=
  ⟨by decide, c9_mark_membership_idempotent [(5 : ChannelID), 6] 5 6 (by decide)⟩

/-- C2 (amended): over every sequence of processed notifications starting
from the initial state, a channel identifier is in `temporaryChannels`
exactly when the number of clone-trigger workflows that completed — the
clone-branch `CreateChannel` succeeded *and* the follow-up `MoveMember`
into the created channel succeeded — exceeds the number of `DeleteChannel`
attempts on that identifier in the standalone leave-teardown branch.
Removal happens on the deletion attempt whether or not the delete
succeeds, and a create whose follow-up move fails never enters the set. -/
theorem c2_tracker_invariant (evs : List (Event × Env)) (id : ChannelID) :
    contains (run initialState evs).1.temporaryChannels id = true ↔
      standaloneDeletes (run initialState evs).2 id
        < cloneMoves (run initialState evs).2 id := by
  have h := run_count evs initialState id
  simp only [initialState, countId] at h ⊢
  rw [contains_iff_countId_pos]
  omega

/-- Channel returned by the clone create of the C2 counterexample run. -/
def c2Temp : Channel := ⟨42, "room", .guildVoice, 1, 5, 0⟩

/-- Second created channel of the C2 counterexample run (its move fails). -/
def c2Temp2 : Channel := ⟨43, "room", .guildVoice, 1, 5, 0⟩

/-- The clone-trigger channel of the C2 counterexample run. -/
def c2Trigger : Channel := ⟨10, cloneTriggerName, .guildVoice, 1, 5, 0⟩

/-- Oracle for the first C2 event: fetch succeeds, create returns channel
42, move succeeds. -/
def c2EnvA : Env :=
  ⟨fun id => if id = 10 then some c2Trigger else none,
   fun _ _ => some c2Temp,
   fun _ _ _ => true,
   fun _ => false,
   fun _ => none⟩

/-- Oracle for the second C2 event: fetch succeeds, create returns channel
43, but the move fails. -/
def c2EnvB : Env :=
  ⟨fun id => if id = 10 then some c2Trigger else none,
   fun _ _ => some c2Temp2,
   fun _ _ _ => false,
   fun _ => false,
   fun _ => none⟩

/-- Oracle for the final C2 event: fetch of channel 42 succeeds and the
`DeleteChannel` on it fails. -/
def c2EnvD : Env :=
  ⟨fun id => if id = 42 then some c2Temp else none,
   fun _ _ => none,
   fun _ _ _ => false,
   fun _ => false,
   fun _ => none⟩

/-- The C2 counterexample run: user 1 joins the trigger and is provisioned
channel 42; user 2 joins the trigger, channel 43 is created but the move
fails; user 1 moves into 42 and then disconnects, and the delete of 42
fails. -/
def c2Run : HState × List DirCall :=
  run initialState
    [(⟨1, ⟨10, 1⟩, "alice"⟩, c2EnvA),
     (⟨2, ⟨10, 1⟩, "bob"⟩, c2EnvB),
     (⟨1, ⟨42, 1⟩, "alice"⟩, c2EnvA),
     (⟨1, ⟨0, 1⟩, "alice"⟩, c2EnvD)]

/-- C2 counterexample: the claim's iff fails on this run in both
directions.  Channel 42 was returned by a successful clone-branch
`CreateChannel` and was never the subject of a *successful*
`DeleteChannel` (the only delete attempt on it failed), yet it is no
longer in `temporaryChannels`; channel 43 was also returned by a
successful clone-branch `CreateChannel` and never deleted, yet it never
entered `temporaryChannels` because its follow-up `MoveMember` failed. -/
theorem c2_counterexample :
    cloneCreates c2Run.2 42 = 1
      ∧ standaloneDeleteSuccesses c2Run.2 42 = 0
      ∧ standaloneDeletes c2Run.2 42 = 1
      ∧ contains c2Run.1.temporaryChannels 42 = false
      ∧ cloneCreates c2Run.2 43 = 1
      ∧ standaloneDeleteSuccesses c2Run.2 43 = 0
      ∧ contains c2Run.1.temporaryChannels 43 = false := by
  decide

/-- A JOIN-classified event never has equal previous and new channel IDs:
the previous ID prints as the empty string (invalid) while the new one is
valid, so the inner `before.ChannelID != evt.ChannelID` check of source
line 88 always passes under the line-86 guard. -/
theorem join_ids_differ (x y : ChannelID) (h1 : x.stringEmpty = true)
    (h2 : y.isValid = true) : x ≠ y := by
  intro he
  subst he
  simp [ChannelID.stringEmpty, h2] at h1

/-- C1: a JOIN (previous membership the none sentinel, new channel valid)
into a channel named with the clone-trigger literal issues exactly one
`CreateChannel` — type voice, same guild, same parent category as the
trigger channel, named username + roomSuffix — then exactly one
`MoveMember` of the joining user into the created channel, and after both
succeed appends exactly the created channel's ID to `temporaryChannels`;
nothing else changes except the registry overwrite. -/
theorem c1_clone_provisioning (env : Env) (st : HState) (evt : Event)
    (ch temp : Channel)
    (h1 : (regGet st.userVoiceStates evt.userID).channelID.stringEmpty = true)
    (h2 : evt.vs.channelID.isValid = true)
    (h3 : env.channel evt.vs.channelID = some ch)
    (h4 : ch.name = cloneTriggerName)
    (h5 : env.createChannel ch.guildID
            (cloneData ch (evt.username ++ roomSuffix)) = some temp)
    (h6 : env.modifyMember ch.guildID evt.userID temp.id = true) :
    onVoiceStateUpdate env st evt
      = ({ st with
            userVoiceStates := regSet st.userVoiceStates evt.userID evt.vs,
            temporaryChannels := markChannel st.temporaryChannels temp.id },
         [.getChannel evt.vs.channelID (some ch),
          .create .clone ch.guildID
            (cloneData ch (evt.username ++ roomSuffix)) (some temp),
          .move .clone ch.guildID evt.userID temp.id true]) := by
  have hne := join_ids_differ _ _ h1 h2
  simp only [onVoiceStateUpdate, h1, h2, Bool.and_self, if_pos hne,
    joinBranch, h3, h4, cloneFlow, h5, h6]
  simp

/-- C5: on the clone path, a failed `CreateChannel` stops the workflow —
no `MoveMember` is issued and `temporaryChannels` is untouched — and a
failed `MoveMember` after a successful `CreateChannel` still leaves the
created channel's ID out of `temporaryChannels` (both conclusions give
the handler's entire output, so the absent call and the unchanged slice
are read off the result). -/
theorem c5_clone_failure_aborts (env1 env2 : Env) (st : HState) (evt : Event)
    (ch temp : Channel)
    (h1 : (regGet st.userVoiceStates evt.userID).channelID.stringEmpty = true)
    (h2 : evt.vs.channelID.isValid = true)
    (h3 : env1.channel evt.vs.channelID = some ch)
    (h3b : env2.channel evt.vs.channelID = some ch)
    (h4 : ch.name = cloneTriggerName)
    (h5 : env1.createChannel ch.guildID
            (cloneData ch (evt.username ++ roomSuffix)) = none)
    (h6 : env2.createChannel ch.guildID
            (cloneData ch (evt.username ++ roomSuffix)) = some temp)
    (h7 : env2.modifyMember ch.guildID evt.userID temp.id = false) :
    onVoiceStateUpdate env1 st evt
      = ({ st with
            userVoiceStates := regSet st.userVoiceStates evt.userID evt.vs },
         [.getChannel evt.vs.channelID (some ch),
          .create .clone ch.guildID
            (cloneData ch (evt.username ++ roomSuffix)) none])
    ∧ onVoiceStateUpdate env2 st evt
      = ({ st with
            userVoiceStates := regSet st.userVoiceStates evt.userID evt.vs },
         [.getChannel evt.vs.channelID (some ch),
          .create .clone ch.guildID
            (cloneData ch (evt.username ++ roomSuffix)) (some temp),
          .move .clone ch.guildID evt.userID temp.id false]) := by
  have hne := join_ids_differ _ _ h1 h2
  constructor
  · simp only [onVoiceStateUpdate, h1, h2, Bool.and_self, if_pos hne,
      joinBranch, h3, h4, cloneFlow, h5]
    simp
  · simp only [onVoiceStateUpdate, h1, h2, Bool.and_self, if_pos hne,
      joinBranch, h3b, h4, cloneFlow, h6, h7]
    simp

/-- C4: a JOIN into a channel named with the teams-trigger literal issues,
in order, one `CreateChannel` for a category named username + roomSuffix,
one `CreateChannel` for a text channel parented to it, one `CreateChannel`
for a voice channel parented to it, then one `MoveMember` into the voice
channel, and on full success appends the voice channel's ID to
`temporaryCategories`; and failure at the category, text, voice or move
step aborts every later call with `temporaryCategories` untouched.  The
five conjuncts give the handler's entire output for a fully successful
oracle and for oracles failing at each of the four steps. -/
theorem c4_teams_provisioning (envS envA envB envC envD : Env) (st : HState)
    (evt : Event) (ch cat txt vc : Channel)
    (h1 : (regGet st.userVoiceStates evt.userID).channelID.stringEmpty = true)
    (h2 : evt.vs.channelID.isValid = true)
    (hchS : envS.channel evt.vs.channelID = some ch)
    (hchA : envA.channel evt.vs.channelID = some ch)
    (hchB : envB.channel evt.vs.channelID = some ch)
    (hchC : envC.channel evt.vs.channelID = some ch)
    (hchD : envD.channel evt.vs.channelID = some ch)
    (hname : ch.name = teamsTriggerName)
    (hS1 : envS.createChannel ch.guildID
            (teamsCategoryData (evt.username ++ roomSuffix)) = some cat)
    (hS2 : envS.createChannel cat.guildID (teamsTextData cat.id) = some txt)
    (hS3 : envS.createChannel cat.guildID (teamsVoiceData cat.id) = some vc)
    (hS4 : envS.modifyMember cat.guildID evt.userID vc.id = true)
    (hA1 : envA.createChannel ch.guildID
            (teamsCategoryData (evt.username ++ roomSuffix)) = none)
    (hB1 : envB.createChannel ch.guildID
            (teamsCategoryData (evt.username ++ roomSuffix)) = some cat)
    (hB2 : envB.createChannel cat.guildID (teamsTextData cat.id) = none)
    (hC1 : envC.createChannel ch.guildID
            (teamsCategoryData (evt.username ++ roomSuffix)) = some cat)
    (hC2 : envC.createChannel cat.guildID (teamsTextData cat.id) = some txt)
    (hC3 : envC.createChannel cat.guildID (teamsVoiceData cat.id) = none)
    (hD1 : envD.createChannel ch.guildID
            (teamsCategoryData (evt.username ++ roomSuffix)) = some cat)
    (hD2 : envD.createChannel cat.guildID (teamsTextData cat.id) = some txt)
    (hD3 : envD.createChannel cat.guildID (teamsVoiceData cat.id) = some vc)
    (hD4 : envD.modifyMember cat.guildID evt.userID vc.id = false) :
    onVoiceStateUpdate envS st evt
      = ({ st with
            userVoiceStates := regSet st.userVoiceStates evt.userID evt.vs,
            temporaryCategories := markCategory st.temporaryCategories vc.id },
         [.getChannel evt.vs.channelID (some ch),
          .create .teamsCategory ch.guildID
            (teamsCategoryData (evt.username ++ roomSuffix)) (some cat),
          .create .teamsText cat.guildID (teamsTextData cat.id) (some txt),
          .create .teamsVoice cat.guildID (teamsVoiceData cat.id) (some vc),
          .move .teamsVoice cat.guildID evt.userID vc.id true])
    ∧ onVoiceStateUpdate envA st evt
      = ({ st with
            userVoiceStates := regSet st.userVoiceStates evt.userID evt.vs },
         [.getChannel evt.vs.channelID (some ch),
          .create .teamsCategory ch.guildID
            (teamsCategoryData (evt.username ++ roomSuffix)) none])
    ∧ onVoiceStateUpdate envB st evt
      = ({ st with
            userVoiceStates := regSet st.userVoiceStates evt.userID evt.vs },
         [.getChannel evt.vs.channelID (some ch),
          .create .teamsCategory ch.guildID
            (teamsCategoryData (evt.username ++ roomSuffix)) (some cat),
          .create .teamsText cat.guildID (teamsTextData cat.id) none])
    ∧ onVoiceStateUpdate envC st evt
      = ({ st with
            userVoiceStates := regSet st.userVoiceStates evt.userID evt.vs },
         [.getChannel evt.vs.channelID (some ch),
          .create .teamsCategory ch.guildID
            (teamsCategoryData (evt.username ++ roomSuffix)) (some cat),
          .create .teamsText cat.guildID (teamsTextData cat.id) (some txt),
          .create .teamsVoice cat.guildID (teamsVoiceData cat.id) none])
    ∧ onVoiceStateUpdate envD st evt
      = ({ st with
            userVoiceStates := regSet st.userVoiceStates evt.userID evt.vs },
         [.getChannel evt.vs.channelID (some ch),
          .create .teamsCategory ch.guildID
            (teamsCategoryData (evt.username ++ roomSuffix)) (some cat),
          .create .teamsText cat.guildID (teamsTextData cat.id) (some txt),
          .create .teamsVoice cat.guildID (teamsVoiceData cat.id) (some vc),
          .move .teamsVoice cat.guildID evt.userID vc.id false]) := by
  have hne := join_ids_differ _ _ h1 h2
  have hnc : teamsTriggerName ≠ cloneTriggerName := by decide
  refine ⟨?_, ?_, ?_, ?_, ?_⟩
  · simp only [onVoiceStateUpdate, h1, h2, Bool.and_self, if_pos hne,
      joinBranch, hchS, hname, if_neg hnc, teamsFlow, hS1, hS2, hS3, hS4]
    simp [hname, hnc]
  · simp only [onVoiceStateUpdate, h1, h2, Bool.and_self, if_pos hne,
      joinBranch, hchA, hname, if_neg hnc, teamsFlow, hA1]
    simp [hname, hnc]
  · simp only [onVoiceStateUpdate, h1, h2, Bool.and_self, if_pos hne,
      joinBranch, hchB, hname, if_neg hnc, teamsFlow, hB1, hB2]
    simp [hname, hnc]
  · simp only [onVoiceStateUpdate, h1, h2, Bool.and_self, if_pos hne,
      joinBranch, hchC, hname, if_neg hnc, teamsFlow, hC1, hC2, hC3]
    simp [hname, hnc]
  · simp only [onVoiceStateUpdate, h1, h2, Bool.and_self, if_pos hne,
      joinBranch, hchD, hname, if_neg hnc, teamsFlow, hD1, hD2, hD3, hD4]
    simp [hname, hnc]

/-- The tracked temporary voice channel of the C3 scenario (ID 42, parent
category 7). -/
def c3Voice : Channel := ⟨42, "voice", .guildVoice, 1, 7, 0⟩

/-- The sibling text channel of the C3 scenario (ID 43, parent 7). -/
def c3Text : Channel := ⟨43, "text", .guildText, 1, 7, 0⟩

/-- The parent category of the C3 scenario (ID 7, no parent). -/
def c3Cat : Channel := ⟨7, "room", .guildCategory, 1, 0, 0⟩

/-- Handler state for the C3 scenario: user 1 is recorded in voice channel
42 and `temporaryCategories` tracks 42, exactly as the teams workflow
leaves it (source line 153 appends the voice channel's ID). -/
def c3State : HState := ⟨[(1, ⟨42, 1⟩)], [], [42]⟩

/-- The C3 notification: user 1 disconnects from voice (new channel 0). -/
def c3Event : Event := ⟨1, ⟨0, 1⟩, "alice"⟩

/-- Oracle for the C3 scenario: both channel fetches succeed, the guild
listing returns the category with both children, and every delete
succeeds. -/
def c3Env : Env :=
  ⟨fun id => if id = 42 then some c3Voice
             else if id = 7 then some c3Cat else none,
   fun _ _ => none,
   fun _ _ _ => false,
   fun _ => true,
   fun g => if g = 1 then some [c3Cat, c3Voice, c3Text] else none⟩

/-- C3 evaluated at the failing input: the teardown itself runs in full —
both children and the category are deleted, all successfully — but the
final `remove` is called with the category's ID 7, which is not the
tracked identifier, so `temporaryCategories` still contains the voice
channel's ID 42 afterwards, contradicting the claim (and the spec's
`unmarkCategory`) that the tracked identifier is removed. -/
theorem c3_unmark_category_bug :
    (onVoiceStateUpdate c3Env c3State c3Event).2
      = [.getChannel 42 (some c3Voice),
         .getChannel 7 (some c3Cat),
         .listChannels 1 (some [c3Cat, c3Voice, c3Text]),
         .delete .teardownChild 42 true,
         .delete .teardownChild 43 true,
         .delete .teardownCategory 7 true]
      ∧ (onVoiceStateUpdate c3Env c3State c3Event).1.temporaryCategories = [42]
      ∧ contains
          (onVoiceStateUpdate c3Env c3State c3Event).1.temporaryCategories 42
          = true := by
  decide

/-! ### Concrete witnesses -/

/-- The clone-trigger channel of the C1 witness scenario. -/
def c1Trigger : Channel := ⟨10, cloneTriggerName, .guildVoice, 1, 5, 0⟩

/-- The channel the create of the C1 witness scenario returns. -/
def c1Temp : Channel := ⟨42, "room", .guildVoice, 1, 5, 0⟩

/-- Oracle of the C1 witness scenario: fetch, create and move all succeed. -/
def c1Env : Env :=
  ⟨fun id => if id = 10 then some c1Trigger else none,
   fun _ _ => some c1Temp,
   fun _ _ _ => true,
   fun _ => false,
   fun _ => none⟩

/-- The C1 witness notification: user 1 (previously absent) joins 10. -/
def c1Evt : Event := ⟨1, ⟨10, 1⟩, "alice"⟩

/-- C1 witness: the clone provisioning theorem at a concrete input. -/
theorem c1_clone_provisioning_witness :
    onVoiceStateUpdate c1Env initialState c1Evt
      = ({ initialState with
            userVoiceStates :=
              regSet initialState.userVoiceStates c1Evt.userID c1Evt.vs,
            temporaryChannels :=
              markChannel initialState.temporaryChannels c1Temp.id },
         [.getChannel c1Evt.vs.channelID (some c1Trigger),
          .create .clone c1Trigger.guildID
            (cloneData c1Trigger (c1Evt.username ++ roomSuffix)) (some c1Temp),
          .move .clone c1Trigger.guildID c1Evt.userID c1Temp.id true]) :=
  c1_clone_provisioning c1Env initialState c1Evt c1Trigger c1Temp
    (by decide) (by decide) (by decide) (by decide) (by decide) (by decide)

/-- The clone-trigger channel of the C5 witness scenario. -/
def c5Trigger : Channel := ⟨10, cloneTriggerName, .guildVoice, 1, 5, 0⟩

/-- The channel the create of the second C5 witness oracle returns. -/
def c5Temp : Channel := ⟨42, "room", .guildVoice, 1, 5, 0⟩

/-- First C5 witness oracle: the create fails. -/
def c5Env1 : Env :=
  ⟨fun id => if id = 10 then some c5Trigger else none,
   fun _ _ => none,
   fun _ _ _ => true,
   fun _ => false,
   fun _ => none⟩

/-- Second C5 witness oracle: the create succeeds, the move fails. -/
def c5Env2 : Env :=
  ⟨fun id => if id = 10 then some c5Trigger else none,
   fun _ _ => some c5Temp,
   fun _ _ _ => false,
   fun _ => false,
   fun _ => none⟩

/-- The C5 witness notification. -/
def c5Evt : Event := ⟨1, ⟨10, 1⟩, "alice"⟩

/-- C5 witness: the clone failure-handling theorem at a concrete input. -/
theorem c5_clone_failure_aborts_witness :
    onVoiceStateUpdate c5Env1 initialState c5Evt
      = ({ initialState with
            userVoiceStates :=
              regSet initialState.userVoiceStates c5Evt.userID c5Evt.vs },
         [.getChannel c5Evt.vs.channelID (some c5Trigger),
          .create .clone c5Trigger.guildID
            (cloneData c5Trigger (c5Evt.username ++ roomSuffix)) none])
    ∧ onVoiceStateUpdate c5Env2 initialState c5Evt
      = ({ initialState with
            userVoiceStates :=
              regSet initialState.userVoiceStates c5Evt.userID c5Evt.vs },
         [.getChannel c5Evt.vs.channelID (some c5Trigger),
          .create .clone c5Trigger.guildID
            (cloneData c5Trigger (c5Evt.username ++ roomSuffix)) (some c5Temp),
          .move .clone c5Trigger.guildID c5Evt.userID c5Temp.id false]) := by
  exact c5_clone_failure_aborts c5Env1 c5Env2 initialState c5Evt c5Trigger
    c5Temp (by decide) (by decide) (by decide) (by decide) (by decide)
    (by decide) (by decide) (by decide)

/-- The teams-trigger channel of the C4 witness scenario. -/
def c4Trigger : Channel := ⟨10, teamsTriggerName, .guildVoice, 1, 5, 0⟩

/-- The category created in the C4 witness scenario. -/
def c4Cat : Channel := ⟨70, "room", .guildCategory, 1, 0, 0⟩

/-- The text channel created in the C4 witness scenario. -/
def c4Txt : Channel := ⟨71, "text", .guildText, 1, 70, 0⟩

/-- The voice channel created in the C4 witness scenario. -/
def c4Vc : Channel := ⟨72, "voice", .guildVoice, 1, 70, 0⟩

/-- C4 witness oracle: every create (dispatched on the requested channel
type) and the move succeed. -/
def c4EnvS : Env :=
  ⟨fun id => if id = 10 then some c4Trigger else none,
   fun _ data =>
     match data.type with
     | .guildCategory => some c4Cat
     | .guildText => some c4Txt
     | .guildVoice => some c4Vc
     | .other => none,
   fun _ _ _ => true,
   fun _ => false,
   fun _ => none⟩

/-- C4 witness oracle failing at the category create. -/
def c4EnvA : Env :=
  ⟨fun id => if id = 10 then some c4Trigger else none,
   fun _ _ => none,
   fun _ _ _ => true,
   fun _ => false,
   fun _ => none⟩

/-- C4 witness oracle failing at the text create. -/
def c4EnvB : Env :=
  ⟨fun id => if id = 10 then some c4Trigger else none,
   fun _ data =>
     match data.type with
     | .guildCategory => some c4Cat
     | _ => none,
   fun _ _ _ => true,
   fun _ => false,
   fun _ => none⟩

/-- C4 witness oracle failing at the voice create. -/
def c4EnvC : Env :=
  ⟨fun id => if id = 10 then some c4Trigger else none,
   fun _ data =>
     match data.type with
     | .guildCategory => some c4Cat
     | .guildText => some c4Txt
     | _ => none,
   fun _ _ _ => true,
   fun _ => false,
   fun _ => none⟩

/-- C4 witness oracle failing at the move. -/
def c4EnvD : Env :=
  ⟨fun id => if id = 10 then some c4Trigger else none,
   fun _ data =>
     match data.type with
     | .guildCategory => some c4Cat
     | .guildText => some c4Txt
     | .guildVoice => some c4Vc
     | .other => none,
   fun _ _ _ => false,
   fun _ => false,
   fun _ => none⟩

/-- The C4 witness notification: user 1 (previously absent) joins 10. -/
def c4Evt : Event := ⟨1, ⟨10, 1⟩, "alice"⟩

/-- C4 witness: the teams provisioning theorem at a concrete input. -/
theorem c4_teams_provisioning_witness :
    onVoiceStateUpdate c4EnvS initialState c4Evt
      = ({ initialState with
            userVoiceStates :=
              regSet initialState.userVoiceStates c4Evt.userID c4Evt.vs,
            temporaryCategories :=
              markCategory initialState.temporaryCategories c4Vc.id },
         [.getChannel c4Evt.vs.channelID (some c4Trigger),
          .create .teamsCategory c4Trigger.guildID
            (teamsCategoryData (c4Evt.username ++ roomSuffix)) (some c4Cat),
          .create .teamsText c4Cat.guildID (teamsTextData c4Cat.id) (some c4Txt),
          .create .teamsVoice c4Cat.guildID (teamsVoiceData c4Cat.id) (some c4Vc),
          .move .teamsVoice c4Cat.guildID c4Evt.userID c4Vc.id true])
    ∧ onVoiceStateUpdate c4EnvA initialState c4Evt
      = ({ initialState with
            userVoiceStates :=
              regSet initialState.userVoiceStates c4Evt.userID c4Evt.vs },
         [.getChannel c4Evt.vs.channelID (some c4Trigger),
          .create .teamsCategory c4Trigger.guildID
            (teamsCategoryData (c4Evt.username ++ roomSuffix)) none])
    ∧ onVoiceStateUpdate c4EnvB initialState c4Evt
      = ({ initialState with
            userVoiceStates :=
              regSet initialState.userVoiceStates c4Evt.userID c4Evt.vs },
         [.getChannel c4Evt.vs.channelID (some c4Trigger),
          .create .teamsCategory c4Trigger.guildID
            (teamsCategoryData (c4Evt.username ++ roomSuffix)) (some c4Cat),
          .create .teamsText c4Cat.guildID (teamsTextData c4Cat.id) none])
    ∧ onVoiceStateUpdate c4EnvC initialState c4Evt
      = ({ initialState with
            userVoiceStates :=
              regSet initialState.userVoiceStates c4Evt.userID c4Evt.vs },
         [.getChannel c4Evt.vs.channelID (some c4Trigger),
          .create .teamsCategory c4Trigger.guildID
            (teamsCategoryData (c4Evt.username ++ roomSuffix)) (some c4Cat),
          .create .teamsText c4Cat.guildID (teamsTextData c4Cat.id) (some c4Txt),
          .create .teamsVoice c4Cat.guildID (teamsVoiceData c4Cat.id) none])
    ∧ onVoiceStateUpdate c4EnvD initialState c4Evt
      = ({ initialState with
            userVoiceStates :=
              regSet initialState.userVoiceStates c4Evt.userID c4Evt.vs },
         [.getChannel c4Evt.vs.channelID (some c4Trigger),
          .create .teamsCategory c4Trigger.guildID
            (teamsCategoryData (c4Evt.username ++ roomSuffix)) (some c4Cat),
          .create .teamsText c4Cat.guildID (teamsTextData c4Cat.id) (some c4Txt),
          .create .teamsVoice c4Cat.guildID (teamsVoiceData c4Cat.id) (some c4Vc),
          .move .teamsVoice c4Cat.guildID c4Evt.userID c4Vc.id false]) := by
  exact c4_teams_provisioning c4EnvS c4EnvA c4EnvB c4EnvC c4EnvD initialState
    c4Evt c4Trigger c4Cat c4Txt c4Vc
    (by decide) (by decide) (by decide) (by decide) (by decide) (by decide)
    (by decide) (by decide) (by decide) (by decide) (by decide) (by decide)
    (by decide) (by decide) (by decide) (by decide) (by decide) (by decide)
    (by decide) (by decide) (by decide) (by decide)

/-- Oracle of the C6 witness scenario (never consulted by a MOVE). -/
def c6Env : Env :=
  ⟨fun _ => none, fun _ _ => none, fun _ _ _ => false, fun _ => false,
   fun _ => none⟩

/-- C6 witness state: user 1 currently in channel 5, which is tracked. -/
def c6St : HState := ⟨[(1, ⟨5, 1⟩)], [5], []⟩

/-- C6 witness notification: user 1 moves from channel 5 to channel 6. -/
def c6Evt : Event := ⟨1, ⟨6, 1⟩, "alice"⟩

/-- C6 witness: a pure move out of a tracked channel only overwrites the
registry entry — no calls, no teardown of the tracked channel. -/
theorem c6_move_noop_frame_witness :
    onVoiceStateUpdate c6Env c6St c6Evt
      = ({ c6St with
            userVoiceStates := regSet c6St.userVoiceStates c6Evt.userID c6Evt.vs },
         []) :=
  c6_move_noop_frame c6Env c6St c6Evt (Or.inl ⟨by decide, by decide⟩)

/-- Oracle of the C10 witness scenario. -/
def c10Env : Env :=
  ⟨fun _ => none, fun _ _ => none, fun _ _ _ => false, fun _ => false,
   fun _ => none⟩

/-- C10 witness state: user 2 is recorded in channel 7. -/
def c10St : HState := ⟨[(2, ⟨7, 1⟩)], [], []⟩

/-- C10 witness notification: an event for user 1. -/
def c10Evt : Event := ⟨1, ⟨10, 1⟩, "alice"⟩

/-- C10 witness: user 2's registry entry survives user 1's notification. -/
theorem c10_other_users_unchanged_witness :
    regGet (onVoiceStateUpdate c10Env c10St c10Evt).1.userVoiceStates 2
      = regGet c10St.userVoiceStates 2 :=
  c10_other_users_unchanged c10Env c10St c10Evt 2 (by decide)
